/-
Verification of the Geofence Attendance Engine (src/app.py).

Shallow embedding conventions:
* Python floats are modelled as real numbers (ℝ); datetimes and dates as ℕ
  (only ordering and equality of timestamps matter to the claims).
* `request` values that may be absent or unparseable are modelled as
  `Option ℝ` (`none` = missing or not convertible by `float(...)`).
* The database rows `GeoFence`, `Attendance`, `LocationPing` are structures;
  the active geofence is an `Option GeoFence` (the row returned by
  `get_active_geofence`), the per-(user, day) attendance record an
  `Option Attendance` (the row returned by
  `Attendance.query.filter_by(user_id=..., date=today).first()`), and the
  ping table a `List LocationPing`.
* Each Flask handler becomes a pure function from its inputs and the
  relevant state to (response, new state).
-/
import Mathlib

open Real

noncomputable section

/-- Degrees to radians, as Python's `math.radians(x)`. -/
def radians (x : ℝ) : ℝ := x * Real.pi / 180

/-- The two-argument arctangent `math.atan2(y, x)`, as in CPython's `math`
module (the branch structure of the C standard `atan2`). -/
def atan2 (y x : ℝ) : ℝ :=
  if 0 < x then Real.arctan (y / x)
  else if x < 0 then
    (if 0 ≤ y then Real.arctan (y / x) + Real.pi else Real.arctan (y / x) - Real.pi)
  else if 0 < y then Real.pi / 2
  else if y < 0 then -(Real.pi / 2)
  else 0

/-- Distance in meters between two lat/lng points, Earth radius 6371000 m:
the function `haversine(lat1, lon1, lat2, lon2)` of src/app.py lines 95-105. -/
def haversine (lat1 lon1 lat2 lon2 : ℝ) : ℝ :=
  6371000 *
    (2 * atan2
      (Real.sqrt (Real.sin (radians (lat2 - lat1) / 2) ^ 2 +
        Real.cos (radians lat1) * Real.cos (radians lat2) *
          Real.sin (radians (lon2 - lon1) / 2) ^ 2))
      (Real.sqrt (1 - (Real.sin (radians (lat2 - lat1) / 2) ^ 2 +
        Real.cos (radians lat1) * Real.cos (radians lat2) *
          Real.sin (radians (lon2 - lon1) / 2) ^ 2))))

/-- The central angle `c` of the haversine formula (lines 103-104). -/
def havCentralAngle (lat1 lon1 lat2 lon2 : ℝ) : ℝ :=
  2 * atan2
    (Real.sqrt (Real.sin (radians (lat2 - lat1) / 2) ^ 2 +
      Real.cos (radians lat1) * Real.cos (radians lat2) *
        Real.sin (radians (lon2 - lon1) / 2) ^ 2))
    (Real.sqrt (1 - (Real.sin (radians (lat2 - lat1) / 2) ^ 2 +
      Real.cos (radians lat1) * Real.cos (radians lat2) *
        Real.sin (radians (lon2 - lon1) / 2) ^ 2)))

/-- The latitude (in degrees, on the meridian `lng = 0`) of a point whose
haversine distance from `(0, 0)` is exactly `d` meters: `d·180/(Rπ)`. -/
def latFor (d : ℝ) : ℝ := d * 180 / (6371000 * Real.pi)

/-- The `GeoFence` model (src/app.py lines 43-49); `id` omitted (row identity
plays no role in the claims). -/
structure GeoFence where
  name : String
  center_lat : ℝ
  center_lng : ℝ
  radius_m : ℝ
  active : Bool

/-- The `Attendance` model (src/app.py lines 52-65), the row for one
`(user_id, date)` key. -/
structure Attendance where
  user_id : ℕ
  date : ℕ
  check_in_time : Option ℕ
  check_out_time : Option ℕ
  check_in_lat : Option ℝ
  check_in_lng : Option ℝ
  check_out_lat : Option ℝ
  check_out_lng : Option ℝ
  check_in_photo : Option String
  check_out_photo : Option String
  status : Option String
  created_at : ℕ

/-- The `LocationPing` model (src/app.py lines 68-74). -/
structure LocationPing where
  user_id : ℕ
  timestamp : ℕ
  lat : ℝ
  lng : ℝ
  inside_geofence : Bool

/-- Outcomes of `POST /api/mark_attendance` (each constructor is one
`jsonify(...)` return of the handler). -/
inductive MarkResult where
  | invalidData                       -- 400 "Invalid data." / "Invalid coordinates."
  | geofenceNotConfigured             -- 500 "Geofence not configured."
  | outsideZone (distance_m : ℝ)      -- "You are outside the allowed area"
  | alreadyCheckedIn                  -- "You have already checked in for today."
  | checkInSuccess (timestamp : ℕ)    -- "Check-in successful."
  | notCheckedIn                      -- "You haven't checked in yet."
  | alreadyCheckedOut                 -- "You already checked out for today."
  | checkOutSuccess (timestamp : ℕ)   -- "Check-out successful."

/-- The handler `mark_attendance` (src/app.py lines 235-331).  Inputs: the active
geofence (`get_active_geofence()`), the request's lat/lng (`none` = absent
or not `float(...)`-convertible), the `action` string, the existing
attendance row for `(g.user.id, today)`, and `now = datetime.utcnow()`.
Returns the response and the attendance row after any commit. -/
def mark_attendance (uid today : ℕ) (gf : Option GeoFence)
    (lat? lng? : Option ℝ) (action : String)
    (att : Option Attendance) (now : ℕ) : MarkResult × Option Attendance :=
  match lat?, lng? with
  | some lat, some lng =>
    if action = "check_in" ∨ action = "check_out" then
      match gf with
      | none => (.geofenceNotConfigured, att)
      | some g =>
        -- distance_m = haversine(lat, lng, gf.center_lat, gf.center_lng)
        -- inside = distance_m <= gf.radius_m
        if haversine lat lng g.center_lat g.center_lng ≤ g.radius_m then
          if action = "check_in" then
            match att with
            | some a =>
              if a.check_in_time.isSome then (.alreadyCheckedIn, att)
              else
                (.checkInSuccess now,
                 some { a with check_in_time := some now, check_in_lat := some lat,
                               check_in_lng := some lng, status := some "Present" })
            | none =>
              (.checkInSuccess now,
               some { user_id := uid, date := today,
                      check_in_time := some now, check_out_time := none,
                      check_in_lat := some lat, check_in_lng := some lng,
                      check_out_lat := none, check_out_lng := none,
                      check_in_photo := none, check_out_photo := none,
                      status := some "Present", created_at := now })
          else
            match att with
            | none => (.notCheckedIn, att)
            | some a =>
              if a.check_in_time.isSome then
                if a.check_out_time.isSome then (.alreadyCheckedOut, att)
                else
                  (.checkOutSuccess now,
                   some { a with check_out_time := some now,
                                 check_out_lat := some lat, check_out_lng := some lng })
              else (.notCheckedIn, att)
        else
          (.outsideZone (haversine lat lng g.center_lat g.center_lng), att)
    else (.invalidData, att)
  | _, _ => (.invalidData, att)

/-- Outcomes of `POST /api/ping_location`. -/
inductive PingResult where
  | invalidCoordinates                        -- 400
  | geofenceNotConfigured                     -- 500
  | pingSuccess (inside : Bool) (distance_m : ℝ)  -- "success": True

/-- HTTP status of each `ping_location` response. -/
def pingStatus : PingResult → ℕ
  | .invalidCoordinates => 400
  | .geofenceNotConfigured => 500
  | .pingSuccess _ _ => 200

/-- The handler `ping_location` (src/app.py lines 334-370).  Appends a classified
`LocationPing` to the ping table and returns the classification. -/
def ping_location (uid : ℕ) (gf : Option GeoFence) (lat? lng? : Option ℝ)
    (now : ℕ) (pings : List LocationPing) : PingResult × List LocationPing :=
  match lat?, lng? with
  | some lat, some lng =>
    match gf with
    | none => (.geofenceNotConfigured, pings)
    | some g =>
      let inside : Bool := decide (haversine lat lng g.center_lat g.center_lng ≤ g.radius_m)
      (.pingSuccess inside (haversine lat lng g.center_lat g.center_lng),
       pings ++ [{ user_id := uid, timestamp := now, lat := lat, lng := lng,
                   inside_geofence := inside }])
  | _, _ => (.invalidCoordinates, pings)

/-- Outcomes of `POST /api/mark_attendance_photo`. -/
inductive PhotoResult where
  | noPhoto                           -- 400 "No photo captured."
  | geofenceNotConfigured             -- 500 "Geofence not configured."
  | invalidCoordinates                -- 400 "Invalid coordinates."
  | outsideZone (distance_m : ℝ)      -- "You are outside allowed area"
  | alreadyCheckedIn                  -- "Already checked in."
  | checkInSuccess                    -- "Check-in + Photo captured!"
  | notCheckedIn                      -- "Not checked in yet."
  | alreadyCheckedOut                 -- "Already checked out."
  | checkOutSuccess                   -- "Check-out + Photo captured!"
  | invalidAction                     -- "Invalid action."

/-- The filename `f"{g.user.id}_{action}_{now.strftime(...)}.jpg"` used at
src/app.py line 455. -/
def photoFilename (uid : ℕ) (action : String) (now : ℕ) : String :=
  toString uid ++ "_" ++ action ++ "_" ++ toString now ++ ".jpg"

/-- The handler `mark_attendance_photo` (src/app.py lines 410-493).
Here `hasPhoto` models
`"photo" in request.files`; `photos` is the set of files saved under the
`photos/` folder, in creation order.  Returns the response, the attendance
row after any commit, and the photo folder contents. -/
def mark_attendance_photo (uid today : ℕ) (hasPhoto : Bool)
    (gf : Option GeoFence) (lat? lng? : Option ℝ) (action : String)
    (att : Option Attendance) (now : ℕ) (photos : List String) :
    PhotoResult × Option Attendance × List String :=
  if ¬ hasPhoto then (.noPhoto, att, photos)
  else
    match gf with
    | none => (.geofenceNotConfigured, att, photos)
    | some g =>
      match lat?, lng? with
      | some lat, some lng =>
        if haversine lat lng g.center_lat g.center_lng ≤ g.radius_m then
          -- photo.save(save_path) happens here, before any state inspection
          if action = "check_in" then
            match att with
            | some a =>
              if a.check_in_time.isSome then
                (.alreadyCheckedIn, att, photos ++ [photoFilename uid action now])
              else
                (.checkInSuccess,
                 some { a with check_in_time := some now, check_in_lat := some lat,
                               check_in_lng := some lng, status := some "Present",
                               check_in_photo := some (photoFilename uid action now) },
                 photos ++ [photoFilename uid action now])
            | none =>
              (.checkInSuccess,
               some { user_id := uid, date := today,
                      check_in_time := some now, check_out_time := none,
                      check_in_lat := some lat, check_in_lng := some lng,
                      check_out_lat := none, check_out_lng := none,
                      check_in_photo := some (photoFilename uid action now),
                      check_out_photo := none,
                      status := some "Present", created_at := now },
               photos ++ [photoFilename uid action now])
          else if action = "check_out" then
            match att with
            | none => (.notCheckedIn, att, photos ++ [photoFilename uid action now])
            | some a =>
              if a.check_in_time.isSome then
                if a.check_out_time.isSome then
                  (.alreadyCheckedOut, att, photos ++ [photoFilename uid action now])
                else
                  (.checkOutSuccess,
                   some { a with check_out_time := some now,
                                 check_out_lat := some lat, check_out_lng := some lng,
                                 check_out_photo := some (photoFilename uid action now) },
                   photos ++ [photoFilename uid action now])
              else (.notCheckedIn, att, photos ++ [photoFilename uid action now])
          else (.invalidAction, att, photos ++ [photoFilename uid action now])
        else
          (.outsideZone (haversine lat lng g.center_lat g.center_lng), att, photos)
      | _, _ => (.invalidCoordinates, att, photos)

/-- Outcomes of `POST /admin/geofence`. -/
inductive GeofenceResult where
  | invalidValues                     -- flash "Invalid geofence values."
  | updated                           -- flash "Geofence updated."

/-- The POST branch of `admin_geofence` (src/app.py lines 497-535).  Its `rawName` is
the stripped form field (empty string falls back to "Office"); lat/lng/radius
are `none` when absent or not `float(...)`-convertible.  Returns the flash
outcome and the geofence row after any commit. -/
def admin_geofence (gf : Option GeoFence) (rawName : String)
    (lat? lng? radius? : Option ℝ) : GeofenceResult × Option GeoFence :=
  let name := if rawName = "" then "Office" else rawName
  match lat?, lng?, radius? with
  | some lat, some lng, some radius =>
    match gf with
    | none =>
      (.updated, some { name := name, center_lat := lat, center_lng := lng,
                        radius_m := radius, active := true })
    | some g =>
      (.updated, some { g with name := name, center_lat := lat, center_lng := lng,
                               radius_m := radius, active := true })
  | _, _, _ => (.invalidValues, gf)

/-- States of the `(uid, today)` attendance row reachable by any sequence of
`mark_attendance` / `mark_attendance_photo` requests whose server timestamps
(`datetime.utcnow()`) are non-decreasing.  `Reachable uid today att t` means
`att` is the row after some such sequence whose last (hence largest)
timestamp is at most `t`. -/
inductive Reachable (uid today : ℕ) : Option Attendance → ℕ → Prop where
  | init : Reachable uid today none 0
  | stepMark (att : Option Attendance) (t : ℕ) (gf : Option GeoFence)
      (lat? lng? : Option ℝ) (action : String) (now : ℕ) :
      Reachable uid today att t → t ≤ now →
      Reachable uid today (mark_attendance uid today gf lat? lng? action att now).2 now
  | stepPhoto (att : Option Attendance) (t : ℕ) (hasPhoto : Bool)
      (gf : Option GeoFence) (lat? lng? : Option ℝ) (action : String) (now : ℕ)
      (photos : List String) :
      Reachable uid today att t → t ≤ now →
      Reachable uid today
        (mark_attendance_photo uid today hasPhoto gf lat? lng? action att now photos).2.1 now

/-- Record invariant at time bound `t`: the row has a check-in and status
"Present", all stamped times are ≤ t, and a check-out implies a check-in
that is not later than it. -/
def RecordInv (r : Attendance) (t : ℕ) : Prop :=
  r.check_in_time.isSome ∧ r.status = some "Present" ∧
  (∀ ti, r.check_in_time = some ti → ti ≤ t) ∧
  (∀ tout, r.check_out_time = some tout →
    tout ≤ t ∧ ∀ ti, r.check_in_time = some ti → ti ≤ tout)

/-- A concrete active geofence (center (0,0), radius 200 m) used by the
witnesses. -/
def gf0 : GeoFence :=
  { name := "Office", center_lat := 0, center_lng := 0, radius_m := 200, active := true }

/-- The attendance row produced by a first successful check-in at the
geofence center at time 5 (used by the witnesses). -/
def attEx : Attendance :=
  { user_id := 1, date := 0, check_in_time := some 5, check_out_time := none,
    check_in_lat := some 0, check_in_lng := some 0,
    check_out_lat := none, check_out_lng := none,
    check_in_photo := none, check_out_photo := none,
    status := some "Present", created_at := 5 }

/-- The row `attEx` after the matching check-out at time 7 (witness data). -/
def attEx2 : Attendance :=
  { attEx with check_out_time := some 7, check_out_lat := some 0, check_out_lng := some 0 }

lemma radians_zero : radians 0 = 0 := by
  simp [radians]

lemma radians_neg (x : ℝ) : radians (-x) = -(radians x) := by
  simp [radians]; ring

lemma atan2_zero_one : atan2 0 1 = 0 := by
  simp [atan2]

/-- On a point compared with itself the haversine "a" term is 0, so the
distance is `R * 2 * atan2 0 1 = 0`. -/
lemma haversine_self (lat lon : ℝ) : haversine lat lon lat lon = 0 := by
  simp [haversine, radians_zero, atan2_zero_one]

/-- Swapping the two points negates both coordinate differences; squaring
the sines makes the "a" term, hence the distance, symmetric. -/
lemma haversine_comm (lat1 lon1 lat2 lon2 : ℝ) :
    haversine lat1 lon1 lat2 lon2 = haversine lat2 lon2 lat1 lon1 := by
  have h1 : lat1 - lat2 = -(lat2 - lat1) := by ring
  have h2 : lon1 - lon2 = -(lon2 - lon1) := by ring
  simp only [haversine, h1, h2, radians_neg, neg_div, Real.sin_neg, neg_sq]
  ring_nf

/-- Factoring `haversine` as Earth-radius times central angle. -/
lemma haversine_eq_radius_mul (lat1 lon1 lat2 lon2 : ℝ) :
    haversine lat1 lon1 lat2 lon2 = 6371000 * havCentralAngle lat1 lon1 lat2 lon2 := rfl

lemma radians_latFor (d : ℝ) : radians (0 - latFor d) / 2 = -(d / 12742000) := by
  have hπ : (Real.pi : ℝ) ≠ 0 := Real.pi_ne_zero
  simp only [radians, latFor]
  field_simp
  ring

/-- A point at latitude `latFor d`, longitude 0 is exactly `d` meters from
the origin `(0,0)` (for `0 ≤ d` below half the Earth's circumference). -/
lemma haversine_latFor (d : ℝ) (h0 : 0 ≤ d) (h1 : d < 6371000 * Real.pi) :
    haversine (latFor d) 0 0 0 = d := by
  have hπ := Real.pi_pos
  set t : ℝ := d / 12742000 with ht
  have htnn : 0 ≤ t := by positivity
  have htlt : t < Real.pi / 2 := by
    rw [ht, div_lt_iff₀ (by norm_num : (0:ℝ) < 12742000)]
    nlinarith
  have ha : Real.sin (radians (0 - latFor d) / 2) ^ 2 +
      Real.cos (radians (latFor d)) * Real.cos (radians 0) *
        Real.sin (radians (0 - 0) / 2) ^ 2 = Real.sin t ^ 2 := by
    rw [radians_latFor]
    simp [radians_zero, Real.sin_neg]
  have hcospos : 0 < Real.cos t :=
    Real.cos_pos_of_mem_Ioo ⟨by linarith, htlt⟩
  have hsin : Real.sqrt (Real.sin t ^ 2) = Real.sin t :=
    Real.sqrt_sq (Real.sin_nonneg_of_nonneg_of_le_pi htnn (by linarith))
  have hcos : Real.sqrt (1 - Real.sin t ^ 2) = Real.cos t := by
    have hpyth : 1 - Real.sin t ^ 2 = Real.cos t ^ 2 := by
      have := Real.sin_sq_add_cos_sq t
      linarith
    rw [hpyth, Real.sqrt_sq hcospos.le]
  have hatan : atan2 (Real.sin t) (Real.cos t) = t := by
    rw [atan2, if_pos hcospos, ← Real.tan_eq_sin_div_cos,
      Real.arctan_tan (by linarith) htlt]
  unfold haversine
  rw [ha, hsin, hcos, hatan, ht]
  ring

/-- C8: The distance function is the haversine formula with fixed Earth
radius 6371000 m (`haversine = 6371000 * central-angle`), it vanishes on
equal points, and it is symmetric in its two points. -/
theorem c8_haversine_properties :
    (∀ lat1 lon1 lat2 lon2 : ℝ,
      haversine lat1 lon1 lat2 lon2 = 6371000 * havCentralAngle lat1 lon1 lat2 lon2) ∧
    (∀ lat lon : ℝ, haversine lat lon lat lon = 0) ∧
    (∀ lat1 lon1 lat2 lon2 : ℝ,
      haversine lat1 lon1 lat2 lon2 = haversine lat2 lon2 lat1 lon1) :=
  ⟨haversine_eq_radius_mul, haversine_self, haversine_comm⟩

/-- C7: With no active geofence, `ping_location` always answers
"Geofence not configured" (HTTP 500), never a default inside/outside
classification, and appends no `LocationPing`; its status 500 is distinct
from the 200 used for every classified ping. -/
theorem c7_ping_no_active_geofence :
    ∀ (uid : ℕ) (lat lng : ℝ) (now : ℕ) (pings : List LocationPing),
      ping_location uid none (some lat) (some lng) now pings
        = (PingResult.geofenceNotConfigured, pings) ∧
      pingStatus PingResult.geofenceNotConfigured = 500 ∧
      ∀ (inside : Bool) (d : ℝ), pingStatus (PingResult.pingSuccess inside d) = 200 :=
  fun _ _ _ _ _ => ⟨rfl, rfl, fun _ _ => rfl⟩

/-- C5 counterexample: `admin_geofence` accepts a radius of -5 (not > 0)
together with center (100, 200) (latitude outside [-90, 90], longitude
outside [-180, 180]): the request is answered "Geofence updated." and the
geofence is created with exactly those values, contradicting the claimed
`InvalidGeofence` / `InvalidCoordinate` rejections. -/
theorem c5_counterexample :
    admin_geofence none "Office" (some 100) (some 200) (some (-5))
      = (GeofenceResult.updated,
         some { name := "Office", center_lat := 100, center_lng := 200,
                radius_m := -5, active := true }) ∧
    GeofenceResult.updated ≠ GeofenceResult.invalidValues := by
  refine ⟨?_, by simp⟩
  simp [admin_geofence]

/-- C5 amended: the only validation `admin_geofence` performs is that lat,
lng and radius parse as floats.  Unparseable input is rejected ("Invalid
geofence values.") with the geofence unchanged; any parsed values — radius
≤ 0 or out-of-range coordinates included — are accepted and stored, with
the geofence marked active. -/
theorem c5_amended_parse_only_validation :
    (∀ (gf : Option GeoFence) (rawName : String) (lat? lng? radius? : Option ℝ),
      lat? = none ∨ lng? = none ∨ radius? = none →
      admin_geofence gf rawName lat? lng? radius? = (GeofenceResult.invalidValues, gf)) ∧
    (∀ (gf : Option GeoFence) (rawName : String) (lat lng radius : ℝ),
      ∃ g', admin_geofence gf rawName (some lat) (some lng) (some radius)
              = (GeofenceResult.updated, some g') ∧
        g'.center_lat = lat ∧ g'.center_lng = lng ∧ g'.radius_m = radius ∧
        g'.active = true) := by
  constructor
  · rintro gf rawName lat? lng? radius? (rfl | rfl | rfl)
    · rfl
    · cases lat? <;> rfl
    · cases lat? <;> cases lng? <;> rfl
  · intro gf rawName lat lng radius
    cases gf <;> exact ⟨_, rfl, rfl, rfl, rfl, rfl⟩

/-- Witness for the amended C5 at a concrete input: a missing latitude is
rejected and the stored geofence is untouched. -/
theorem c5_amended_witness :
    admin_geofence (some gf0) "HQ" none (some 1) (some 2)
      = (GeofenceResult.invalidValues, some gf0) :=
  c5_amended_parse_only_validation.1 (some gf0) "HQ" none (some 1) (some 2) (Or.inl rfl)

/-- C6: A check-out with an inside point but no prior successful check-in
(no row, or a row without `check_in_time`) is always refused with
"You haven't checked in yet." and leaves the row unchanged. -/
theorem c6_checkout_before_checkin :
    ∀ (uid today : ℕ) (g : GeoFence) (lat lng : ℝ) (att : Option Attendance) (now : ℕ),
      haversine lat lng g.center_lat g.center_lng ≤ g.radius_m →
      (att = none ∨ ∃ r, att = some r ∧ r.check_in_time = none) →
      mark_attendance uid today (some g) (some lat) (some lng) "check_out" att now
        = (MarkResult.notCheckedIn, att) := by
  intro uid today g lat lng att now hd hatt
  rcases hatt with rfl | ⟨r, rfl, hr⟩
  · simp [mark_attendance, hd]
  · simp [mark_attendance, hd, hr]

/-- Witness for C6: check-out at the geofence center with no record yields
`notCheckedIn`. -/
theorem c6_witness :
    mark_attendance 1 0 (some gf0) (some 0) (some 0) "check_out" none 3
      = (MarkResult.notCheckedIn, none) := by
  refine c6_checkout_before_checkin 1 0 gf0 0 0 none 3 ?_ (Or.inl rfl)
  show haversine 0 0 gf0.center_lat gf0.center_lng ≤ gf0.radius_m
  rw [show gf0.center_lat = 0 from rfl, show gf0.center_lng = 0 from rfl,
    haversine_self]
  norm_num [gf0]

/-- C2: For an outside point, both attendance endpoints refuse the
transition with the outside-zone response carrying the computed distance,
leave the attendance row (and, for the photo endpoint, the photo folder)
unchanged, and do so for every action and every current row state — the
zone check precedes any state inspection. -/
theorem c2_outside_zone_short_circuit :
    ∀ (uid today : ℕ) (g : GeoFence) (lat lng : ℝ) (action : String)
      (att : Option Attendance) (now : ℕ) (photos : List String),
      action = "check_in" ∨ action = "check_out" →
      ¬ haversine lat lng g.center_lat g.center_lng ≤ g.radius_m →
      mark_attendance uid today (some g) (some lat) (some lng) action att now
        = (MarkResult.outsideZone (haversine lat lng g.center_lat g.center_lng), att) ∧
      mark_attendance_photo uid today true (some g) (some lat) (some lng) action att now photos
        = (PhotoResult.outsideZone (haversine lat lng g.center_lat g.center_lng), att,
           photos) := by
  intro uid today g lat lng action att now photos hact hd
  constructor
  · simp only [mark_attendance]
    rw [if_pos hact, if_neg hd]
  · simp only [mark_attendance_photo]
    rw [if_neg (by simp), if_neg hd]

/-- Witness for C2 at a point 1000 m from the center of a 200 m fence. -/
theorem c2_witness :
    mark_attendance 1 0 (some gf0) (some (latFor 1000)) (some 0) "check_in" none 3
      = (MarkResult.outsideZone (haversine (latFor 1000) 0 0 0), none) ∧
    mark_attendance_photo 1 0 true (some gf0) (some (latFor 1000)) (some 0) "check_in" none 3 []
      = (PhotoResult.outsideZone (haversine (latFor 1000) 0 0 0), none, []) := by
  have hπ := Real.pi_gt_three
  have h1000 : haversine (latFor 1000) 0 0 0 = 1000 :=
    haversine_latFor 1000 (by norm_num) (by nlinarith)
  have hd : ¬ haversine (latFor 1000) 0 gf0.center_lat gf0.center_lng ≤ gf0.radius_m := by
    rw [show gf0.center_lat = (0:ℝ) from rfl, show gf0.center_lng = (0:ℝ) from rfl, h1000]
    norm_num [gf0]
  exact c2_outside_zone_short_circuit 1 0 gf0 (latFor 1000) 0 "check_in" none 3 []
    (Or.inl rfl) hd

/-- C1: The ping classifier marks a point inside exactly when its haversine
distance to the active geofence's center is ≤ the radius; in particular for
a 200 m fence a point at distance exactly 200.0 is inside and a point at
distance 200.01 is outside. -/
theorem c1_boundary_inclusive :
    ∀ (uid now : ℕ) (g : GeoFence) (lat lng : ℝ) (pings : List LocationPing),
      ((ping_location uid (some g) (some lat) (some lng) now pings).1
          = PingResult.pingSuccess true (haversine lat lng g.center_lat g.center_lng)
        ↔ haversine lat lng g.center_lat g.center_lng ≤ g.radius_m) ∧
      (g.radius_m = 200 → haversine lat lng g.center_lat g.center_lng = 200 →
        (ping_location uid (some g) (some lat) (some lng) now pings).1
          = PingResult.pingSuccess true 200) ∧
      (g.radius_m = 200 → haversine lat lng g.center_lat g.center_lng = 200.01 →
        (ping_location uid (some g) (some lat) (some lng) now pings).1
          = PingResult.pingSuccess false 200.01) := by
  intro uid now g lat lng pings
  refine ⟨?_, ?_, ?_⟩
  · simp [ping_location]
  · intro hr hd
    simp only [ping_location, hd, hr]
    norm_num
  · intro hr hd
    simp only [ping_location, hd, hr]
    norm_num

/-- Witness for C1: against the 200 m fence `gf0`, a point at exactly 200.0 m
is classified inside and a point at exactly 200.01 m outside. -/
theorem c1_witness :
    (ping_location 1 (some gf0) (some (latFor 200)) (some 0) 3 []).1
      = PingResult.pingSuccess true 200 ∧
    (ping_location 1 (some gf0) (some (latFor 200.01)) (some 0) 3 []).1
      = PingResult.pingSuccess false 200.01 := by
  have hπ := Real.pi_gt_three
  have h200 : haversine (latFor 200) 0 0 0 = 200 :=
    haversine_latFor 200 (by norm_num) (by nlinarith)
  have h20001 : haversine (latFor 200.01) 0 0 0 = 200.01 :=
    haversine_latFor 200.01 (by norm_num) (by nlinarith)
  exact ⟨(c1_boundary_inclusive 1 3 gf0 (latFor 200) 0 []).2.1 rfl h200,
         (c1_boundary_inclusive 1 3 gf0 (latFor 200.01) 0 []).2.2 rfl h20001⟩

/-- The geofence center `(0,0)` of `gf0` is inside `gf0` (distance 0 ≤ 200). -/
lemma gf0_inside_origin : haversine 0 0 gf0.center_lat gf0.center_lng ≤ gf0.radius_m := by
  rw [show gf0.center_lat = (0:ℝ) from rfl, show gf0.center_lng = (0:ℝ) from rfl,
    haversine_self]
  norm_num [gf0]

/-- Inverting a successful check-in: it stamped `check_in_time = now`,
the check-in location, and status "Present" on the returned row. -/
lemma mark_check_in_success_inv
    (uid today : ℕ) (gf : Option GeoFence) (lat lng : ℝ) (action : String)
    (att att' : Option Attendance) (now s : ℕ)
    (h : mark_attendance uid today gf (some lat) (some lng) action att now
          = (MarkResult.checkInSuccess s, att')) :
    s = now ∧ ∀ r, att' = some r → r.check_in_time = some now ∧
      r.check_in_lat = some lat ∧ r.check_in_lng = some lng ∧
      r.status = some "Present" := by
  rcases gf with _ | g
  · simp only [mark_attendance] at h
    split_ifs at h <;> simp at h
  rcases att with _ | a
  · simp only [mark_attendance] at h
    split_ifs at h with hact hd hci
    · injection h with h1 h2
      injection h1 with h1
      refine ⟨h1.symm, ?_⟩
      intro r hr
      rw [← h2] at hr
      obtain rfl := Option.some.inj hr
      exact ⟨rfl, rfl, rfl, rfl⟩
    · simp at h
    · simp at h
    · simp at h
  · simp only [mark_attendance] at h
    split_ifs at h with hact hd hci hsome hin hout
    · simp at h
    · injection h with h1 h2
      injection h1 with h1
      refine ⟨h1.symm, ?_⟩
      intro r hr
      rw [← h2] at hr
      obtain rfl := Option.some.inj hr
      exact ⟨rfl, rfl, rfl, rfl⟩
    · simp at h
    · simp at h
    · simp at h
    · simp at h
    · simp at h

/-- A row that already has a check-in refuses a second check-in from an
inside point and is left unchanged. -/
lemma mark_check_in_already
    (uid today : ℕ) (g : GeoFence) (lat lng : ℝ) (r : Attendance) (now : ℕ)
    (hd : haversine lat lng g.center_lat g.center_lng ≤ g.radius_m)
    (hsome : r.check_in_time.isSome) :
    mark_attendance uid today (some g) (some lat) (some lng) "check_in" (some r) now
      = (MarkResult.alreadyCheckedIn, some r) := by
  simp [mark_attendance, hd, hsome]

/-- No `mark_attendance` call clears or overwrites a set `check_in_time`. -/
lemma mark_preserves_check_in_time
    (uid today : ℕ) (gf : Option GeoFence) (lat? lng? : Option ℝ) (action : String)
    (r : Attendance) (now : ℕ) (hr : r.check_in_time.isSome) :
    ∃ r', (mark_attendance uid today gf lat? lng? action (some r) now).2 = some r'
      ∧ r'.check_in_time = r.check_in_time := by
  rcases lat? with _ | lat
  · exact ⟨r, rfl, rfl⟩
  rcases lng? with _ | lng
  · exact ⟨r, rfl, rfl⟩
  rcases gf with _ | g
  · simp only [mark_attendance]
    split_ifs <;> exact ⟨r, rfl, rfl⟩
  simp only [mark_attendance]
  split_ifs
  all_goals first
    | exact ⟨r, rfl, rfl⟩
    | (refine ⟨_, rfl, ?_⟩
       rfl)

/-- No `mark_attendance_photo` call clears or overwrites a set `check_in_time`. -/
lemma photo_preserves_check_in_time
    (uid today : ℕ) (hasPhoto : Bool) (gf : Option GeoFence) (lat? lng? : Option ℝ)
    (action : String) (r : Attendance) (now : ℕ) (photos : List String)
    (hr : r.check_in_time.isSome) :
    ∃ r', (mark_attendance_photo uid today hasPhoto gf lat? lng? action
            (some r) now photos).2.1 = some r'
      ∧ r'.check_in_time = r.check_in_time := by
  rcases gf with _ | g
  · cases hasPhoto <;> exact ⟨r, rfl, rfl⟩
  rcases lat? with _ | lat
  · cases hasPhoto <;> exact ⟨r, rfl, rfl⟩
  rcases lng? with _ | lng
  · cases hasPhoto <;> exact ⟨r, rfl, rfl⟩
  cases hasPhoto
  · exact ⟨r, rfl, rfl⟩
  simp only [mark_attendance_photo]
  split_ifs
  all_goals first
    | exact ⟨r, rfl, rfl⟩
    | (refine ⟨_, rfl, ?_⟩
       rfl)

/-- C3: After a successful check-in, a second check-in from an inside point
is refused with `alreadyCheckedIn` and the row is returned unchanged; the
row carries exactly the first call's timestamp, location and "Present"
status, and no later `mark_attendance` or `mark_attendance_photo` call ever
clears or overwrites the stored `check_in_time`. -/
theorem c3_check_in_idempotent :
    ∀ (uid today : ℕ) (g : GeoFence) (lat₁ lng₁ lat₂ lng₂ : ℝ)
      (att : Option Attendance) (now₁ now₂ : ℕ) (r : Attendance),
      mark_attendance uid today (some g) (some lat₁) (some lng₁) "check_in" att now₁
        = (MarkResult.checkInSuccess now₁, some r) →
      haversine lat₂ lng₂ g.center_lat g.center_lng ≤ g.radius_m →
      mark_attendance uid today (some g) (some lat₂) (some lng₂) "check_in" (some r) now₂
        = (MarkResult.alreadyCheckedIn, some r) ∧
      r.check_in_time = some now₁ ∧ r.check_in_lat = some lat₁ ∧
      r.check_in_lng = some lng₁ ∧ r.status = some "Present" ∧
      (∀ (gf' : Option GeoFence) (lat? lng? : Option ℝ) (action : String) (now' : ℕ),
        ∃ r', (mark_attendance uid today gf' lat? lng? action (some r) now').2 = some r'
          ∧ r'.check_in_time = some now₁) ∧
      (∀ (hasPhoto : Bool) (gf' : Option GeoFence) (lat? lng? : Option ℝ)
         (action : String) (now' : ℕ) (photos : List String),
        ∃ r', (mark_attendance_photo uid today hasPhoto gf' lat? lng? action
                (some r) now' photos).2.1 = some r'
          ∧ r'.check_in_time = some now₁) := by
  intro uid today g lat₁ lng₁ lat₂ lng₂ att now₁ now₂ r h1 hd2
  obtain ⟨hct, hclat, hclng, hst⟩ :=
    (mark_check_in_success_inv uid today (some g) lat₁ lng₁ "check_in" att (some r)
      now₁ now₁ h1).2 r rfl
  have hsome : r.check_in_time.isSome := by rw [hct]; rfl
  refine ⟨mark_check_in_already uid today g lat₂ lng₂ r now₂ hd2 hsome,
    hct, hclat, hclng, hst, ?_, ?_⟩
  · intro gf' lat? lng? action now'
    obtain ⟨r', h', hpres⟩ :=
      mark_preserves_check_in_time uid today gf' lat? lng? action r now' hsome
    exact ⟨r', h', hpres.trans hct⟩
  · intro hasPhoto gf' lat? lng? action now' photos
    obtain ⟨r', h', hpres⟩ :=
      photo_preserves_check_in_time uid today hasPhoto gf' lat? lng? action r now'
        photos hsome
    exact ⟨r', h', hpres.trans hct⟩

/-- Evaluating the first successful check-in of the witness scenario:
user 1, day 0, geofence `gf0`, point (0,0), time 5. -/
lemma mark_first_eval :
    mark_attendance 1 0 (some gf0) (some 0) (some 0) "check_in" none 5
      = (MarkResult.checkInSuccess 5, some attEx) := by
  simp [mark_attendance, gf0_inside_origin, attEx]

/-- Witness for C3: the concrete second check-in at time 9 is refused and
the row still carries the first call's timestamp 5. -/
theorem c3_witness :
    mark_attendance 1 0 (some gf0) (some 0) (some 0) "check_in" (some attEx) 9
      = (MarkResult.alreadyCheckedIn, some attEx) ∧
    attEx.check_in_time = some 5 := by
  have h := c3_check_in_idempotent 1 0 gf0 0 0 0 0 none 5 9 attEx
    mark_first_eval gf0_inside_origin
  exact ⟨h.1, h.2.1⟩

lemma recordInv_mono {r : Attendance} {t t' : ℕ} (h : RecordInv r t) (hle : t ≤ t') :
    RecordInv r t' := by
  obtain ⟨h1, h2, h3, h4⟩ := h
  exact ⟨h1, h2, fun ti hti => le_trans (h3 ti hti) hle,
    fun tout htout => ⟨le_trans (h4 tout htout).1 hle, (h4 tout htout).2⟩⟩

/-- One `mark_attendance` request preserves the record invariant. -/
lemma mark_step_inv (uid today : ℕ) (gf : Option GeoFence) (lat? lng? : Option ℝ)
    (action : String) (att : Option Attendance) (now t : ℕ) (hle : t ≤ now)
    (IH : ∀ r, att = some r → RecordInv r t) :
    ∀ r', (mark_attendance uid today gf lat? lng? action att now).2 = some r' →
      RecordInv r' now := by
  intro r' h
  rcases lat? with _ | lat
  · exact recordInv_mono (IH r' h) hle
  rcases lng? with _ | lng
  · exact recordInv_mono (IH r' h) hle
  rcases gf with _ | g
  · simp only [mark_attendance] at h
    split_ifs at h <;> exact recordInv_mono (IH r' h) hle
  rcases att with _ | a
  · simp only [mark_attendance] at h
    split_ifs at h
    all_goals first
      | exact recordInv_mono (IH r' h) hle
      | (obtain rfl := Option.some.inj h
         refine ⟨rfl, rfl, ?_, ?_⟩
         · intro ti hti
           obtain rfl : now = ti := Option.some.inj hti
           exact Nat.le_refl _
         · intro tout htout
           simp at htout)
  · have hA : a.check_in_time.isSome = true := (IH a rfl).1
    simp only [mark_attendance] at h
    split_ifs at h
    all_goals first
      | exact recordInv_mono (IH r' h) hle
      | (obtain rfl := Option.some.inj h
         obtain ⟨i1, i2, i3, i4⟩ := IH a rfl
         refine ⟨i1, i2, fun ti hti => le_trans (i3 ti hti) hle,
           fun tout htout => ?_⟩
         obtain rfl : now = tout := Option.some.inj htout
         exact ⟨le_refl now, fun ti hti => le_trans (i3 ti hti) hle⟩)

/-- One `mark_attendance_photo` request preserves the record invariant. -/
lemma photo_step_inv (uid today : ℕ) (hasPhoto : Bool) (gf : Option GeoFence)
    (lat? lng? : Option ℝ) (action : String) (att : Option Attendance)
    (now t : ℕ) (photos : List String) (hle : t ≤ now)
    (IH : ∀ r, att = some r → RecordInv r t) :
    ∀ r', (mark_attendance_photo uid today hasPhoto gf lat? lng? action att now photos).2.1
        = some r' → RecordInv r' now := by
  intro r' h
  rcases gf with _ | g
  · simp only [mark_attendance_photo] at h
    split_ifs at h <;> exact recordInv_mono (IH r' h) hle
  rcases lat? with _ | lat
  · simp only [mark_attendance_photo] at h
    split_ifs at h <;> exact recordInv_mono (IH r' h) hle
  rcases lng? with _ | lng
  · simp only [mark_attendance_photo] at h
    split_ifs at h <;> exact recordInv_mono (IH r' h) hle
  rcases att with _ | a
  · simp only [mark_attendance_photo] at h
    split_ifs at h
    all_goals first
      | exact recordInv_mono (IH r' h) hle
      | (obtain rfl := Option.some.inj h
         refine ⟨rfl, rfl, ?_, ?_⟩
         · intro ti hti
           obtain rfl : now = ti := Option.some.inj hti
           exact Nat.le_refl _
         · intro tout htout
           simp at htout)
  · have hA : a.check_in_time.isSome = true := (IH a rfl).1
    simp only [mark_attendance_photo] at h
    split_ifs at h
    all_goals first
      | exact recordInv_mono (IH r' h) hle
      | (obtain rfl := Option.some.inj h
         obtain ⟨i1, i2, i3, i4⟩ := IH a rfl
         refine ⟨i1, i2, fun ti hti => le_trans (i3 ti hti) hle,
           fun tout htout => ?_⟩
         obtain rfl : now = tout := Option.some.inj htout
         exact ⟨le_refl now, fun ti hti => le_trans (i3 ti hti) hle⟩)

/-- Every reachable non-empty attendance row satisfies the record
invariant. -/
lemma reachable_inv {uid today : ℕ} {att : Option Attendance} {t : ℕ}
    (h : Reachable uid today att t) : ∀ r, att = some r → RecordInv r t := by
  induction h with
  | init =>
      intro r hr
      simp at hr
  | stepMark att t gf latq lngq action now hre hle IH =>
      exact mark_step_inv uid today gf latq lngq action att now t hle IH
  | stepPhoto att t hasPhoto gf latq lngq action now photos hre hle IH =>
      exact photo_step_inv uid today hasPhoto gf latq lngq action att now t photos hle IH

/-- C4: In every reachable attendance row with both times set, the check-out
time is not earlier than the check-in time (operation timestamps assumed
non-decreasing, as encoded by `Reachable`). -/
theorem c4_ordering_invariant :
    ∀ (uid today : ℕ) (r : Attendance) (t ti tout : ℕ),
      Reachable uid today (some r) t →
      r.check_in_time = some ti → r.check_out_time = some tout →
      ti ≤ tout := by
  intro uid today r t ti tout hre hin hout
  exact ((reachable_inv hre r rfl).2.2.2 tout hout).2 ti hin

/-- C10: Every reachable non-empty attendance row has `check_in_time` set
and status "Present": rows are only ever created by a successful check-in,
which stamps both before committing. -/
theorem c10_committed_rows_checked_in :
    ∀ (uid today : ℕ) (r : Attendance) (t : ℕ),
      Reachable uid today (some r) t →
      r.check_in_time.isSome = true ∧ r.status = some "Present" := by
  intro uid today r t hre
  exact ⟨(reachable_inv hre r rfl).1, (reachable_inv hre r rfl).2.1⟩

/-- Evaluating the witness scenario's check-out: user 1, day 0, geofence
`gf0`, point (0,0), time 7, starting from `attEx`. -/
lemma mark_second_eval :
    mark_attendance 1 0 (some gf0) (some 0) (some 0) "check_out" (some attEx) 7
      = (MarkResult.checkOutSuccess 7, some attEx2) := by
  simp [mark_attendance, gf0_inside_origin, attEx, attEx2]

lemma reach_attEx : Reachable 1 0 (some attEx) 5 := by
  have h := Reachable.stepMark none 0 (some gf0) (some 0) (some 0) "check_in" 5
    (@Reachable.init 1 0) (Nat.zero_le 5)
  rwa [(congrArg Prod.snd mark_first_eval : _ = some attEx)] at h

lemma reach_attEx2 : Reachable 1 0 (some attEx2) 7 := by
  have h := Reachable.stepMark (some attEx) 5 (some gf0) (some 0) (some 0) "check_out" 7
    reach_attEx (by norm_num)
  rwa [(congrArg Prod.snd mark_second_eval : _ = some attEx2)] at h

/-- Witness for C4: the concrete check-in-at-5 / check-out-at-7 run reaches
`attEx2`, and the theorem yields 5 ≤ 7 for its stored times. -/
theorem c4_witness :
    attEx2.check_in_time = some 5 ∧ attEx2.check_out_time = some 7 ∧ 5 ≤ 7 :=
  ⟨rfl, rfl, c4_ordering_invariant 1 0 attEx2 7 5 7 reach_attEx2 rfl rfl⟩

/-- Witness for C10 at the concrete reachable row `attEx`. -/
theorem c10_witness :
    attEx.check_in_time.isSome = true ∧ attEx.status = some "Present" :=
  c10_committed_rows_checked_in 1 0 attEx 5 reach_attEx

/-- C9: Whenever a photo request passes the photo-present, geofence and
inside-zone checks, the photo file is saved — for every action and every
current row state, including all refused transitions. -/
theorem c9_photo_saved_before_state_inspection :
    ∀ (uid today : ℕ) (g : GeoFence) (lat lng : ℝ) (action : String)
      (att : Option Attendance) (now : ℕ) (photos : List String),
      haversine lat lng g.center_lat g.center_lng ≤ g.radius_m →
      (mark_attendance_photo uid today true (some g) (some lat) (some lng)
        action att now photos).2.2
        = photos ++ [photoFilename uid action now] := by
  intro uid today g lat lng action att now photos hd
  by_cases hci : action = "check_in"
  · subst hci
    rcases att with _ | a
    · simp [mark_attendance_photo, hd]
    · by_cases hs : a.check_in_time.isSome <;>
        simp [mark_attendance_photo, hd, hs]
  by_cases hco : action = "check_out"
  · subst hco
    rcases att with _ | a
    · simp [mark_attendance_photo, hd, hci]
    · by_cases hs : a.check_in_time.isSome
      · by_cases ho : a.check_out_time.isSome <;>
          simp [mark_attendance_photo, hd, hci, hs, ho]
      · simp [mark_attendance_photo, hd, hci, hs]
  · simp [mark_attendance_photo, hd, hci, hco]

/-- Witness for C9: a check-out with no record is refused with
`notCheckedIn`, yet the photo has been saved. -/
theorem c9_witness :
    (mark_attendance_photo 1 0 true (some gf0) (some 0) (some 0) "check_out" none 3 []).2.2
      = [photoFilename 1 "check_out" 3] ∧
    (mark_attendance_photo 1 0 true (some gf0) (some 0) (some 0) "check_out" none 3 []).1
      = PhotoResult.notCheckedIn := by
  constructor
  · exact c9_photo_saved_before_state_inspection 1 0 gf0 0 0 "check_out" none 3 []
      gf0_inside_origin
  · simp [mark_attendance_photo, gf0_inside_origin]

end
